import Mathlib

/-!
Verification development for the news-aggregator ingestion and enrichment
engine.  The definitions shallowly embed the engine's source:

* the article data model and lexicon tables,
* the Go scorers `calculateSentimentScore`, `calculateImpactScore`,
  `calculatePolicyProbability` (test-ui/b-ui-aggregator.go),
* the web scorers of the `/api/news` route handler (sentiment with phrase and
  negation handling, impact, policy probability),
* the provider retry loop `NewsAPIProvider.FetchNews`,
* the cache / orchestrator `AppState.fetchNewsFromProviders` and the
  speculative `preloadNextPage`,
* the bookmark toggle `toggleBookmark` / `isBookmarked`.

Time is modelled in seconds as `Nat`; Go `int` is modelled as `Int`.
-/

set_option maxHeartbeats 1000000

namespace NewsAggregator

/-! ## Data model -/

/-- An article, as in the Go `Article` struct (source id/name flattened). -/
structure Article where
  Title : String := ""
  Description : String := ""
  URL : String := ""
  URLToImage : String := ""
  PublishedAt : String := ""
  ImpactScore : Int := 0
  PolicyProbability : Int := 0
  SentimentScore : Int := 0
  SourceID : String := ""
  SourceName : String := ""
deriving DecidableEq

/-! ## Lexicon tables

These lists appear verbatim in the source; `positiveKeywords` and
`negativeKeywords` are defined identically in the Go file and in the web
route handler, so they are stated once here. -/

def positiveKeywords : List String := [
  "good", "great", "excellent", "positive", "success", "improve", "benefit", "effective", "strong", "happy", "joy", "love", "optimistic", "favorable", "promising", "encouraging",
  "grow", "growth", "expansion", "expand", "increase", "surge", "rise", "upward", "upturn", "boom", "accelerate", "augment", "boost", "rally", "recover", "recovery",
  "achieve", "achieved", "outperform", "exceed", "beat", "record", "profitable", "profit", "gains", "earnings", "revenue", "dividend", "surplus",
  "innovative", "innovation", "breakthrough", "advance", "launch", "new", "develop", "upgrade", "leading", "cutting-edge",
  "bullish", "optimism", "confidence", "stable", "stability", "support", "demand", "hot", "high", "robust",
  "acquire", "acquisition", "merger", "partnership", "agreement", "approve", "approved", "endorse", "confirm"]

def negativeKeywords : List String := [
  "bad", "poor", "terrible", "negative", "fail", "failure", "weak", "adverse", "sad", "angry", "fear", "pessimistic", "unfavorable", "discouraging",
  "decline", "decrease", "drop", "fall", "slump", "downturn", "recession", "contraction", "reduce", "cut", "loss", "losses", "deficit", "shrink", "erode", "weaken",
  "crisis", "disaster", "risk", "warn", "warning", "threat", "problem", "issue", "concern", "challenge", "obstacle", "difficulty", "uncertainty", "volatile", "volatility",
  "underperform", "miss", "shortfall", "struggle", "stagnate", "delay", "halt",
  "bearish", "pessimism", "doubt", "skepticism", "unstable", "instability", "pressure", "low", "oversupply", "bubble",
  "investigation", "lawsuit", "penalty", "fine", "sanction", "ban", "fraud", "scandal", "recall", "dispute", "reject", "denied", "downgrade"]

/-- Impact keyword list of the Go scorer (`impactScoreKeywords`). -/
def impactScoreKeywords : List String := [
  "recession", "inflation", "interest rates", "market crash", "trade war", "supply chain", "corporate earnings", "acquisition", "ipo", "federal reserve", "economic growth", "unemployment", "government stimulus", "new regulation", "geopolitical risk", "tariff", "sanction", "deficit", "surplus", "bankruptcy", "takeover", "merger", "venture capital", "private equity", "stock market", "bond market", "currency fluctuation", "commodity prices", "consumer spending", "housing market", "energy crisis", "financial crisis", "debt ceiling", "quantitative easing", "fiscal policy", "monetary policy", "trade deal", "market sentiment", "volatility", "correction", "bear market", "bull market", "earnings report", "profit warning", "economic forecast", "global economy", "emerging markets",
  "ecb", "european central bank", "eurozone", "brexit impact", "eu stimulus", "recovery fund", "dax", "cac 40", "ftse mib", "euro stoxx 50", "sovereign debt", "eu bailout", "esm", "european stability mechanism",
  "sarb", "south african reserve bank", "jse", "johannesburg stock exchange", "rand", "load shedding", "eskom", "mining sector sa", "sa budget", "credit rating south africa", "foreign direct investment sa", "state owned enterprises sa", "bee impact"]

/-- Policy keyword list of the Go scorer (`policyKeywords`). -/
def policyKeywords : List String := [
  "policy", "regulation", "law", "government", "legislation", "bill", "congress", "senate", "parliament", "decree", "treaty", "court", "ruling", "initiative", "mandate", "executive order", "tariff", "sanction", "subsidy", "public policy", "compliance", "enforcement", "oversight", "hearing", "testimony", "budget", "appropriation", "act", "statute", "ordinance", "directive", "guideline", "framework", "accord", "pact", "resolution", "referendum", "lobbying", "advocacy", "think tank", "white paper", "federal", "state", "local government", "agency", "commission", "authority", "irs", "federal reserve", "supreme court", "white house", "capitol hill", "reform", "governance", "judiciary",
  "european parliament", "european commission", "council of the european union", "eu directive", "eu regulation", "mep", "ecj", "eurozone", "brussels", "ecb", "european central bank", "single market", "schengen", "brexit", "article 50", "eusl", "gdpr",
  "parliament uk", "house of commons", "house of lords", "downing street", "hmrc", "bank of england", "chancellor",
  "parliament sa", "national assembly sa", "national council of provinces", "ncop", "sars", "south african revenue service", "constitutional court sa", "concourt", "provincial government sa", "cabinet sa", "cosatu", "public protector sa", "union buildings", "south african reserve bank", "sarb", "anc", "da", "eff", "state capture", "bee", "black economic empowerment", "land reform", "national development plan", "ndp", "municipal",
  "united nations", "unsc", "world bank", "imf", "wto", "who", "icc", "g7", "g20", "oecd",
  "bundestag", "diet", "duma"]

/-- Positive phrase list of the web sentiment scorer. -/
def positivePhrases : List String := [
  "strong results", "exceeded expectations", "record high", "beats estimates",
  "outperforms market", "positive outlook", "upbeat forecast", "robust growth",
  "solid performance", "impressive gains", "significant improvement"]

/-- Negative phrase list of the web sentiment scorer. -/
def negativePhrases : List String := [
  "fell short", "missed expectations", "record low", "disappointing results",
  "underperforms market", "negative outlook", "bleak forecast", "steep decline",
  "poor performance", "significant losses", "sharp drop", "market crash"]

/-- Negation marker list of the web sentiment scorer. -/
def negationWords : List String := [
  "not", "no", "never", "neither", "nobody", "nothing", "nowhere",
  "lack", "lacking", "lacks", "lacked",
  "without", "hardly", "barely", "scarcely",
  "fail", "failed", "fails", "failing",
  "unlikely", "impossible", "cannot", "can't", "won't", "wouldn't", "couldn't", "shouldn't"]

/-- Impact keyword list of the web scorer (`impactfulWords`). -/
def impactfulWords : List String := [
  "major", "significant", "important", "critical", "breaking", "urgent",
  "massive", "huge", "substantial", "considerable", "remarkable",
  "dramatic", "drastic", "severe", "extreme", "exceptional",
  "crisis", "breakthrough", "disaster", "economy", "war", "pandemic",
  "reform", "global", "election", "protest", "conflict", "threat"]

/-- Policy keyword list of the web scorer. -/
def policyKeywordsWeb : List String := [
  "policy", "regulation", "law", "government", "legislation", "bill",
  "congress", "senate", "parliament", "decree", "treaty", "court",
  "ruling", "initiative"]

/-! ## String utilities shared by both scorer embeddings -/

/-- Characters kept by the tokenizers: Go `FieldsFunc` keeps runes in
`[a-z0-9]`, the web route splits on `[^a-z0-9]+`; both over lower-cased
text. -/
def isTokenChar (c : Char) : Bool :=
  ('a' ≤ c && c ≤ 'z') || ('0' ≤ c && c ≤ '9')

/-- Split a character list into the maximal runs satisfying `keep`
(dropping empty runs), accumulating the current run in reverse. -/
def splitRunsAux (keep : Char → Bool) : List Char → List Char → List String
  | [], acc => if acc.isEmpty then [] else [String.mk acc.reverse]
  | c :: cs, acc =>
    if keep c then splitRunsAux keep cs (c :: acc)
    else if acc.isEmpty then splitRunsAux keep cs []
    else String.mk acc.reverse :: splitRunsAux keep cs []

/-- The word stream: maximal runs of `[a-z0-9]` characters. -/
def tokenizeWords (s : List Char) : List String :=
  splitRunsAux isTokenChar s []

/-- Split on whitespace runs (the web scorer's `split(/\s+/)` plus the
nonempty filter). -/
def splitWhitespaceWords (s : List Char) : List String :=
  splitRunsAux (fun c => !c.isWhitespace) s []

/-- Lower-casing (`strings.ToLower` / `toLowerCase`, ASCII behaviour). -/
def lowerStr (s : String) : String :=
  String.mk (s.toList.map Char.toLower)

/-- First index of `p` as a plain substring of the list starting at offset
`i` (JS `indexOf` / the search inside Go `strings.Contains`). -/
def firstIndexOfAux (p : List Char) : List Char → Nat → Option Nat
  | [], i => if p.isEmpty then some i else none
  | t@(_ :: cs), i => if p.isPrefixOf t then some i else firstIndexOfAux p cs (i + 1)

def firstIndexOf? (t p : List Char) : Option Nat :=
  firstIndexOfAux p t 0

/-- Go `strings.Contains textLower k`. -/
def containsSub (t p : List Char) : Bool :=
  (firstIndexOf? t p).isSome

/-! ## The Go scorers (test-ui/b-ui-aggregator.go) -/

/-- Go `calculateSentimentScore`: ±10 per keyword token, clamped to
`[-100, 100]`; no negation handling. -/
def calculateSentimentScore (text : String) : Int :=
  if text = "" then 0
  else
    let textLower := lowerStr text
    let words := tokenizeWords textLower.toList
    let score := words.foldl
      (fun score word =>
        let score := if positiveKeywords.contains word then score + 10 else score
        if negativeKeywords.contains word then score - 10 else score) 0
    if score > 100 then 100
    else if score < -100 then -100
    else score

/-- Go `calculateImpactScore`: +7 per impact keyword occurring as a
substring (each keyword counted at most once), capped at 100. -/
def calculateImpactScore (text : String) : Int :=
  let textLower := lowerStr text
  let score := impactScoreKeywords.foldl
    (fun score k => if containsSub textLower.toList k.toList then score + 7 else score) 0
  min 100 score

/-- Go `calculatePolicyProbability`: +10 per policy keyword occurring as a
substring (each keyword counted at most once), capped at 100. -/
def calculatePolicyProbability (text : String) : Int :=
  let textLower := lowerStr text
  let score := policyKeywords.foldl
    (fun score k => if containsSub textLower.toList k.toList then score + 10 else score) 0
  min 100 score

/-! ## The web scorers (web/src/app/api/news/route.ts) -/

/-- JS regex word character (`\w`): `[A-Za-z0-9_]`. -/
def isWordChar (c : Char) : Bool :=
  ('a' ≤ c && c ≤ 'z') || ('A' ≤ c && c ≤ 'Z') || ('0' ≤ c && c ≤ '9') || c = '_'

/-- Whether the pattern `p` matches at offset `i` of `t` under the
word-boundary anchors of `createPattern` (`\b p \b`); all configured
patterns begin and end with a word character. -/
def boundaryMatchAt (p t : List Char) (i : Nat) : Bool :=
  p.isPrefixOf (t.drop i)
    && (i = 0 || !isWordChar (t.getD (i - 1) ' '))
    && !isWordChar (t.getD (i + p.length) ' ')

/-- Count the non-overlapping, left-to-right word-boundary matches of `p`
in `t` starting at offset `i` (the semantics of a global JS regex match);
`fuel` bounds the scan. -/
def countBoundaryFrom (p t : List Char) : Nat → Nat → Nat
  | _, 0 => 0
  | i, fuel + 1 =>
    if i > t.length then 0
    else if boundaryMatchAt p t i then 1 + countBoundaryFrom p t (i + max p.length 1) fuel
    else countBoundaryFrom p t (i + 1) fuel

/-- Number of matches of `textLower.match(createPattern p)`. -/
def countBoundary (p t : List Char) : Nat :=
  countBoundaryFrom p t 0 (t.length + 1)

/-- Phrase-pass contribution of one phrase (`sign` is `+1` for positive
phrases and `-1` for negative ones): `matches.length * 15`, inverted when
one of the up-to-3 whitespace-words before the first plain occurrence of
the phrase is a negation marker. -/
def phraseContrib (sign : Int) (phrase : String) (textLower : List Char) : Int :=
  let c := countBoundary phrase.toList textLower
  if c = 0 then 0
  else
    let phraseIdx := (firstIndexOf? textLower phrase.toList).getD 0
    let wordsBefore := splitWhitespaceWords (textLower.take phraseIdx)
    let recentWords := wordsBefore.reverse.take 3
    let isPhraseNegated := recentWords.any (fun w => negationWords.contains w)
    sign * (c : Int) * 15 * (if isPhraseNegated then -1 else 1)

/-- Web `isNegated words idx`: some word in the window of the 3 tokens
before index `i` is a negation marker. -/
def isNegated (ws : List String) (i : Nat) : Bool :=
  ((ws.take i).drop (i - 3)).any (fun w => negationWords.contains w)

/-- Word-pass contribution of the token at index `i`. -/
def wordContribAt (ws : List String) (i : Nat) : Int :=
  let w := ws.getD i ""
  let negated := isNegated ws i
  (if positiveKeywords.contains w then 10 * (if negated then -1 else 1) else 0)
    + (if negativeKeywords.contains w then -10 * (if negated then -1 else 1) else 0)

/-- Contribution of a token ignoring negation (what the word pass adds for
an un-negated token). -/
def plainWordContrib (w : String) : Int :=
  (if positiveKeywords.contains w then 10 else 0)
    + (if negativeKeywords.contains w then -10 else 0)

/-- Web sentiment scorer: phrase passes, then the word pass with negation
detection, then `Math.max(-100, Math.min(100, s))`. -/
def sentimentScoreWeb (text : String) : Int :=
  let textLower := (lowerStr text).toList
  let phraseScore :=
    (positivePhrases.map (fun p => phraseContrib 1 p textLower)).sum
      + (negativePhrases.map (fun p => phraseContrib (-1) p textLower)).sum
  let ws := tokenizeWords textLower
  let wordScore := ((List.range ws.length).map (fun i => wordContribAt ws i)).sum
  max (-100) (min 100 (phraseScore + wordScore))

/-- Web impact scorer: `matches.length * 5` per impactful word
(word-boundary matches), capped at 100. -/
def impactScoreWeb (text : String) : Int :=
  let textLower := (lowerStr text).toList
  let score := impactfulWords.foldl
    (fun acc w =>
      let c := countBoundary w.toList textLower
      if c = 0 then acc else acc + (c : Int) * 5) 0
  min 100 score

/-- Web policy scorer: `matches.length * 10` per policy keyword
(word-boundary matches), capped at 100. -/
def policyProbabilityWeb (text : String) : Int :=
  let textLower := (lowerStr text).toList
  let score := policyKeywordsWeb.foldl
    (fun acc w =>
      let c := countBoundary w.toList textLower
      if c = 0 then acc else acc + (c : Int) * 10) 0
  min 100 score

/-! ## Claim-side policy score used for the refinement comparison in C6 -/

/-- Count the non-overlapping plain substring occurrences of `p` in `t`
(no word-boundary restriction), scanning left to right. -/
def countSubstrFrom (p t : List Char) : Nat → Nat → Nat
  | _, 0 => 0
  | i, fuel + 1 =>
    if i > t.length then 0
    else if p.isPrefixOf (t.drop i) then 1 + countSubstrFrom p t (i + max p.length 1) fuel
    else countSubstrFrom p t (i + 1) fuel

def countSubstr (p t : List Char) : Nat :=
  countSubstrFrom p t 0 (t.length + 1)

/-- Modelled from the claim's words (not from the source): a policy score
that counts every plain substring occurrence of each policy keyword at 10
points per occurrence, clamped to `[0, 100]`.  Used only to compare the
claim's stated rule against the implemented scorers. -/
def policyScorePerSubstrOccurrence (text : String) : Int :=
  let textLower := (lowerStr text).toList
  min 100 ((policyKeywordsWeb.map (fun w => 10 * (countSubstr w.toList textLower : Int))).sum)

/-- Total word-boundary occurrence count of the web policy keywords in a
text (used to restate `policyProbabilityWeb` as a per-occurrence sum). -/
def policyBoundaryOccurrences (text : String) : Nat :=
  (policyKeywordsWeb.map (fun w => countBoundary w.toList (lowerStr text).toList)).sum

/-! ## Provider retry loop (`NewsAPIProvider.FetchNews`)

One HTTP exchange is abstracted as an `HttpResp`; the JSON parsing of the
body is folded into the `okBody` / `malformedBody` constructors.  The loop
`for attempt := 1; attempt <= 3; attempt++` performs one `http.Get` per
iteration, sleeps `attempt` seconds and continues on HTTP 429, and returns
on every other outcome; falling out of the loop yields the exceeded-retries
error. -/

inductive HttpResp where
  | connFail (msg : String)
  | tooManyRequests
  | badStatus (status body : String)
  | malformedBody (body : String)
  | okBody (status : String) (message : Option String) (articles : List Article) (totalResults : Int)
deriving DecidableEq

/-- Observable events of one `FetchNews` call. -/
inductive FetchEv where
  | httpCall
  | sleepSec (n : Nat)
deriving DecidableEq

def isHttpCall : FetchEv → Bool
  | .httpCall => true
  | _ => false

/-- Enrichment applied to every article of a successful response (the three
Go scorers over `Title ++ " " ++ Description`). -/
def enrichArticle (a : Article) : Article :=
  { a with
    ImpactScore := calculateImpactScore (a.Title ++ " " ++ a.Description)
    PolicyProbability := calculatePolicyProbability (a.Title ++ " " ++ a.Description)
    SentimentScore := calculateSentimentScore (a.Title ++ " " ++ a.Description) }

/-- The retry loop body: `resp n` is the outcome of the HTTP call of
attempt `n`; `fuel` counts the remaining loop iterations. -/
def fetchNewsLoop (resp : Nat → HttpResp) : Nat → Nat → Except String (List Article × Int) × List FetchEv
  | _, 0 => (.error "exceeded retry attempts for API request", [])
  | attempt, fuel + 1 =>
    match resp attempt with
    | .connFail msg => (.error ("failed to connect to news service: " ++ msg), [.httpCall])
    | .tooManyRequests =>
      let rest := fetchNewsLoop resp (attempt + 1) fuel
      (rest.1, .httpCall :: .sleepSec attempt :: rest.2)
    | .badStatus status body =>
      (.error ("API request failed with status " ++ status ++ ": " ++ body), [.httpCall])
    | .malformedBody body =>
      (.error ("failed to parse news JSON. Response: " ++ body), [.httpCall])
    | .okBody status message articles totalResults =>
      if status = "ok" then (.ok (articles.map enrichArticle, totalResults), [.httpCall])
      else (.error ("API error: " ++ (message.getD status)), [.httpCall])

/-- `NewsAPIProvider.FetchNews`: the loop starts at attempt 1 with 3
iterations, returning the result together with the event trace. -/
def fetchNewsGo (resp : Nat → HttpResp) : Except String (List Article × Int) × List FetchEv :=
  fetchNewsLoop resp 1 3

/-! ## Cache and orchestrator (`AppState.fetchNewsFromProviders`) -/

/-- A provider, abstracted to the outcome of its `FetchNews` call for given
query arguments. -/
structure FetchArgs where
  query : String
  fromDate : String
  toDate : String
  page : Int
  pageSize : Int
deriving DecidableEq

abbrev ProviderFn : Type := FetchArgs → Except String (List Article × Int)

/-- `fmt.Sprintf("%s:%s:%s:%d:%d", query, fromDate, toDate, page, pageSize)`. -/
def cacheKey (a : FetchArgs) : String :=
  a.query ++ ":" ++ a.fromDate ++ ":" ++ a.toDate ++ ":" ++ toString a.page ++ ":" ++ toString a.pageSize

/-- A cache entry (timestamps in seconds). -/
structure CacheEntry where
  Articles : List Article
  TotalResults : Int
  Timestamp : Nat
deriving DecidableEq

/-- The `NewsCache` map, modelled as an association list. -/
abbrev Cache : Type := List (String × CacheEntry)

/-- Go map lookup. -/
def cacheFind? : Cache → String → Option CacheEntry
  | [], _ => none
  | (k', e) :: rest, k => if k' = k then some e else cacheFind? rest k

/-- Go map assignment (replace the entry for the key, or add it). -/
def cachePut : Cache → String → CacheEntry → Cache
  | [], k, e => [(k, e)]
  | (k', e') :: rest, k, e =>
    if k' = k then (k, e) :: rest else (k', e') :: cachePut rest k e

/-- `cacheTTL = 10 * time.Minute`, in seconds. -/
def cacheTTL : Nat := 600

/-- The hit test `found && time.Since(entry.Timestamp) < cacheTTL`. -/
def freshHit? (c : Cache) (now : Nat) (k : String) : Option CacheEntry :=
  match cacheFind? c k with
  | some e => if now - e.Timestamp < cacheTTL then some e else none
  | none => none

/-- The sequential provider pass: failed providers are skipped, successful
results are appended in provider-list order and counts summed. -/
def providersFetch (ps : List ProviderFn) (a : FetchArgs) : List Article × Int :=
  ps.foldl
    (fun acc p =>
      match p a with
      | .error _ => acc
      | .ok (articles, count) => (acc.1 ++ articles, acc.2 + count)) ([], 0)

/-- Result of one `fetchNewsFromProviders` call: the returned value, the
cache afterwards, the number of provider calls made during this call, and
whether a preload goroutine was spawned. -/
structure FetchResult where
  result : Except String (List Article × Int)
  cache : Cache
  providerCalls : Nat
  preloadSpawned : Bool

/-- `AppState.fetchNewsFromProviders`: fresh cache hit returns the entry
with no provider calls; otherwise all providers are consulted, an
all-empty outcome is the error `"no articles fetched from any provider"`
(the cache is left untouched), and a non-empty outcome is stored under the
key and spawns the preload of the next page. -/
def fetchNewsFromProviders (ps : List ProviderFn) (c : Cache) (now : Nat) (a : FetchArgs) : FetchResult :=
  match freshHit? c now (cacheKey a) with
  | some entry => ⟨.ok (entry.Articles, entry.TotalResults), c, 0, false⟩
  | none =>
    let r := providersFetch ps a
    if r.1 = [] ∧ r.2 = 0 then
      ⟨.error "no articles fetched from any provider", c, ps.length, false⟩
    else
      ⟨.ok (r.1, r.2), cachePut c (cacheKey a) ⟨r.1, r.2, now⟩, ps.length, true⟩

/-- The arguments of the next page. -/
def nextPageArgs (a : FetchArgs) : FetchArgs :=
  { a with page := a.page + 1 }

/-- `AppState.preloadNextPage` (the body of the spawned goroutine): if the
cache already holds *any* entry for the next-page key — fresh or stale —
it returns immediately; otherwise it fetches the next page and stores the
outcome, swallowing errors.  Returns the cache afterwards and the number
of provider calls made. -/
def preloadNextPage (ps : List ProviderFn) (c : Cache) (now : Nat) (a : FetchArgs) : Cache × Nat :=
  let a' := nextPageArgs a
  match cacheFind? c (cacheKey a') with
  | some _ => (c, 0)
  | none =>
    let f := fetchNewsFromProviders ps c now a'
    match f.result with
    | .error _ => (f.cache, f.providerCalls)
    | .ok (articles, total) =>
      (cachePut f.cache (cacheKey a') ⟨articles, total, now⟩, f.providerCalls)

/-- A foreground query followed by the preload it spawned (if any): the
returned value is fixed before the preload runs, so a preload outcome can
only change the cache.  Fields: result, final cache, foreground provider
calls, preload provider calls. -/
def engineQuery (ps : List ProviderFn) (c : Cache) (now : Nat) (a : FetchArgs) :
    Except String (List Article × Int) × Cache × Nat × Nat :=
  let f := fetchNewsFromProviders ps c now a
  if f.preloadSpawned then
    let pl := preloadNextPage ps f.cache now a
    (f.result, pl.1, f.providerCalls, pl.2)
  else
    (f.result, f.cache, f.providerCalls, 0)

/-- All articles held by the cache, across all entries. -/
def cachedArticles (c : Cache) : List Article :=
  (c.map (fun kv => kv.2.Articles)).flatten

/-! ## Bookmarks (`toggleBookmark` / `isBookmarked`) -/

/-- Go `isBookmarked`: linear scan of the bookmark list by URL. -/
def isBookmarked (bms : List Article) (articleURL : String) : Bool :=
  bms.any (fun bm => bm.URL = articleURL)

/-- Go `toggleBookmark`: keep every bookmark whose URL differs from the
article's; append the article iff no bookmark had its URL. -/
def toggleBookmark (bms : List Article) (article : Article) : List Article :=
  let updatedBookmarks := bms.filter (fun bm => bm.URL ≠ article.URL)
  if bms.any (fun bm => bm.URL = article.URL) then updatedBookmarks
  else updatedBookmarks ++ [article]

end NewsAggregator

namespace NewsAggregator

/-! ## Concrete fixtures used by witnesses and counterexamples -/

/-- A response stream in which every HTTP call answers 429. -/
def always429 : Nat → HttpResp := fun _ => HttpResp.tooManyRequests

def artV1 : Article := { Title := "v1", URL := "https://example.com/a" }

def artV2 : Article := { Title := "v2", URL := "https://example.com/a" }

def artB : Article := { Title := "b", URL := "https://example.com/b" }

def args1 : FetchArgs := ⟨"q", "", "", 1, 18⟩

def argsR : FetchArgs := ⟨"r", "", "", 1, 18⟩

/-- A provider that always succeeds with one article. -/
def alwaysOkProvider : ProviderFn := fun _ => .ok ([artV1], 1)

/-- A provider whose call succeeds but carries no articles and a zero
total. -/
def emptyOkProvider : ProviderFn := fun _ => .ok ([], 0)

/-- A provider that always fails. -/
def failProvider : ProviderFn := fun _ => .error "boom"

/-- A provider returning different versions of the same URL for two
different queries. -/
def twoQueryProvider : ProviderFn := fun a =>
  if a.query = "q" then .ok ([artV1], 1) else .ok ([artV2], 1)

/-- A fresh cache entry fixture. -/
def entryFresh : CacheEntry := ⟨[artV1], 1, 100⟩

/-- A stale cache entry fixture (timestamp 0). -/
def entryStale : CacheEntry := ⟨[artV1], 1, 0⟩

/-- A stale entry sitting under the page-2 key of `args1`. -/
def staleEntryPage2 : CacheEntry := ⟨[artB], 5, 0⟩

def cacheWithStalePage2 : Cache := [(cacheKey (nextPageArgs args1), staleEntryPage2)]

/-! ## Helper lemmas -/

/-- A fold whose step never decreases the accumulator is bounded below by
the initial accumulator. -/
theorem foldl_le_init (step : Int → String → Int) (h : ∀ acc w, acc ≤ step acc w) :
    ∀ (l : List String) (acc : Int), acc ≤ l.foldl step acc := by
  intro l
  induction l with
  | nil => intro acc; exact le_rfl
  | cons w ws ih =>
    intro acc
    exact le_trans (h acc w) (ih (step acc w))

/-- If every provider call fails, the provider pass gathers nothing. -/
theorem providersFetch_eq_nil_of_all_fail (ps : List ProviderFn) (a : FetchArgs)
    (h : ∀ p ∈ ps, (p a).toOption = none) : providersFetch ps a = ([], 0) := by
  unfold providersFetch
  suffices hgen : ∀ (qs : List ProviderFn) (acc : List Article × Int),
      (∀ p ∈ qs, (p a).toOption = none) →
      qs.foldl
        (fun acc p =>
          match p a with
          | .error _ => acc
          | .ok (articles, count) => (acc.1 ++ articles, acc.2 + count)) acc = acc by
    exact hgen ps ([], 0) h
  intro qs
  induction qs with
  | nil => intro acc _; rfl
  | cons p qs ih =>
    intro acc hall
    have hp := hall p (List.mem_cons_self _ _)
    cases hpa : p a with
    | error e =>
      simp only [List.foldl_cons, hpa]
      exact ih acc (fun q hq => hall q (List.mem_cons_of_mem _ hq))
    | ok v =>
      rw [hpa] at hp
      simp [Except.toOption] at hp

/-- The article part of the provider pass is the concatenation, in
provider-list order, of each provider's successful contribution. -/
theorem providersFetch_fst_eq_flatten (ps : List ProviderFn) (a : FetchArgs) :
    (providersFetch ps a).1 =
      (ps.map (fun p =>
        match p a with
        | .ok (articles, _) => articles
        | .error _ => [])).flatten := by
  unfold providersFetch
  suffices hgen : ∀ (qs : List ProviderFn) (acc : List Article × Int),
      (qs.foldl
        (fun acc p =>
          match p a with
          | .error _ => acc
          | .ok (articles, count) => (acc.1 ++ articles, acc.2 + count)) acc).1 =
        acc.1 ++ (qs.map (fun p =>
          match p a with
          | .ok (articles, _) => articles
          | .error _ => [])).flatten by
    simpa using hgen ps ([], 0)
  intro qs
  induction qs with
  | nil => intro acc; simp
  | cons p qs ih =>
    intro acc
    cases hpa : p a with
    | error e => simp [List.foldl_cons, hpa, ih]
    | ok v => cases v with
      | mk articles count => simp [List.foldl_cons, hpa, ih]

end NewsAggregator

namespace NewsAggregator

/-! ## Claim C1 — retry bound of the provider call -/

/-- C1 counterexample: with a remote endpoint that always answers 429, the
retry loop of `NewsAPIProvider.FetchNews` makes exactly 3 HTTP calls in
total — not the 4 the claim states — before surfacing the error. -/
theorem retry_loop_three_calls_not_four :
    (fetchNewsGo always429).2.countP isHttpCall = 3
      ∧ (fetchNewsGo always429).2.countP isHttpCall ≠ 4
      ∧ (fetchNewsGo always429).1 = .error "exceeded retry attempts for API request" := by
  refine ⟨by decide, by decide, rfl⟩

/-- C1 (amended): a provider call whose HTTP exchanges always answer
`RateLimited` performs exactly 3 HTTP calls in total (the initial attempt
plus 2 useful retries), sleeping `attempt * 1s` after each rate-limited
response (1s, 2s and a final wasted 3s), and then surfaces the
exceeded-retries error. -/
theorem retry_always_rate_limited (resp : Nat → HttpResp)
    (h : ∀ n, resp n = HttpResp.tooManyRequests) :
    fetchNewsGo resp =
      (.error "exceeded retry attempts for API request",
        [.httpCall, .sleepSec 1, .httpCall, .sleepSec 2, .httpCall, .sleepSec 3]) := by
  show fetchNewsLoop resp 1 3 = _
  rw [fetchNewsLoop, h 1]
  rw [fetchNewsLoop, h 2]
  rw [fetchNewsLoop, h 3]
  rfl

/-- Witness for `retry_always_rate_limited` at the all-429 stream. -/
theorem retry_always_rate_limited_witness :
    fetchNewsGo always429 =
      (.error "exceeded retry attempts for API request",
        [.httpCall, .sleepSec 1, .httpCall, .sleepSec 2, .httpCall, .sleepSec 3]) :=
  retry_always_rate_limited always429 (fun _ => rfl)

/-! ## Claim C2 — fresh cache hit makes no provider calls -/

/-- C2: whenever the cache holds an entry for the query key whose timestamp
is younger than the TTL, a fetch with the identical key returns the cached
articles and total, leaves the cache unchanged, performs zero provider
calls and spawns no preload. -/
theorem cache_fresh_hit_no_provider_calls (ps : List ProviderFn) (c : Cache) (now : Nat)
    (a : FetchArgs) (entry : CacheEntry)
    (hfind : cacheFind? c (cacheKey a) = some entry)
    (hfresh : now - entry.Timestamp < cacheTTL) :
    fetchNewsFromProviders ps c now a =
      ⟨.ok (entry.Articles, entry.TotalResults), c, 0, false⟩ := by
  unfold fetchNewsFromProviders freshHit?
  rw [hfind]
  simp [hfresh]

/-- Witness for `cache_fresh_hit_no_provider_calls` at a concrete fresh
entry. -/
theorem cache_fresh_hit_no_provider_calls_witness :
    fetchNewsFromProviders [alwaysOkProvider] [(cacheKey args1, entryFresh)] 200 args1 =
      ⟨.ok (entryFresh.Articles, entryFresh.TotalResults), [(cacheKey args1, entryFresh)], 0, false⟩ :=
  cache_fresh_hit_no_provider_calls [alwaysOkProvider] [(cacheKey args1, entryFresh)] 200 args1
    entryFresh (by decide) (by decide)

/-! ## Claim C3 — stale entries: refetch, no deletion, fail-closed -/

/-- C3: an entry older than the TTL is treated as a miss (all providers are
consulted again); if that refetch fails, the error is surfaced, the cache —
stale entry included — is left untouched, and the stale articles are not
returned as a fallback. -/
theorem stale_entry_fail_closed (ps : List ProviderFn) (c : Cache) (now : Nat)
    (a : FetchArgs) (entry : CacheEntry)
    (hfind : cacheFind? c (cacheKey a) = some entry)
    (hstale : ¬ now - entry.Timestamp < cacheTTL)
    (hfail : ∀ p ∈ ps, (p a).toOption = none) :
    (fetchNewsFromProviders ps c now a).providerCalls = ps.length
      ∧ (fetchNewsFromProviders ps c now a).result = .error "no articles fetched from any provider"
      ∧ (fetchNewsFromProviders ps c now a).cache = c
      ∧ cacheFind? (fetchNewsFromProviders ps c now a).cache (cacheKey a) = some entry
      ∧ ∀ r, (fetchNewsFromProviders ps c now a).result ≠ .ok r := by
  have hpf : providersFetch ps a = ([], 0) := providersFetch_eq_nil_of_all_fail ps a hfail
  have hbody : fetchNewsFromProviders ps c now a =
      ⟨.error "no articles fetched from any provider", c, ps.length, false⟩ := by
    unfold fetchNewsFromProviders freshHit?
    rw [hfind]
    simp [hstale, hpf]
  refine ⟨by rw [hbody], by rw [hbody], by rw [hbody], by rw [hbody]; exact hfind, ?_⟩
  intro r
  rw [hbody]
  exact fun hcontra => Except.noConfusion hcontra

/-- Witness for `stale_entry_fail_closed`: a stale entry and a failing
provider. -/
theorem stale_entry_fail_closed_witness :
    (fetchNewsFromProviders [failProvider] [(cacheKey args1, entryStale)] 1000 args1).providerCalls = 1
      ∧ (fetchNewsFromProviders [failProvider] [(cacheKey args1, entryStale)] 1000 args1).result =
          .error "no articles fetched from any provider"
      ∧ (fetchNewsFromProviders [failProvider] [(cacheKey args1, entryStale)] 1000 args1).cache =
          [(cacheKey args1, entryStale)]
      ∧ cacheFind? (fetchNewsFromProviders [failProvider] [(cacheKey args1, entryStale)] 1000 args1).cache
          (cacheKey args1) = some entryStale
      ∧ ∀ r, (fetchNewsFromProviders [failProvider] [(cacheKey args1, entryStale)] 1000 args1).result ≠
          .ok r := by
  have h := stale_entry_fail_closed [failProvider] [(cacheKey args1, entryStale)] 1000 args1
    entryStale (by decide) (by decide)
    (by intro p hp; simp only [List.mem_singleton] at hp; subst hp; rfl)
  simpa using h

/-! ## Claim C4 — speculative preload of the next page -/

/-- C4 counterexample: the preload's cache check tests presence only, not
freshness.  With a *stale* (not fresh) entry already sitting under the
page-2 key, the preload spawned by a page-1 fetch performs zero provider
calls and stores nothing, although the claim's proviso (page 2 "not
already cached and fresh") is satisfied. -/
theorem preload_skipped_for_stale_entry :
    (¬ 10000 - staleEntryPage2.Timestamp < cacheTTL)
      ∧ cacheFind? cacheWithStalePage2 (cacheKey (nextPageArgs args1)) = some staleEntryPage2
      ∧ preloadNextPage [alwaysOkProvider] cacheWithStalePage2 10000 args1 =
          (cacheWithStalePage2, 0) := by
  refine ⟨by decide, by decide, rfl⟩

/-- Any entry under the next-page key — fresh or stale — makes the preload
return immediately. -/
theorem preloadNextPage_of_found (ps : List ProviderFn) (c : Cache) (now : Nat) (a : FetchArgs)
    (e : CacheEntry) (h : cacheFind? c (cacheKey (nextPageArgs a)) = some e) :
    preloadNextPage ps c now a = (c, 0) := by
  unfold preloadNextPage
  dsimp only
  rw [h]

/-- With no entry under the next-page key, the preload consults every
provider once; if the pass gathers nothing, the failure is swallowed and
the cache is unchanged. -/
theorem preloadNextPage_of_none (ps : List ProviderFn) (c : Cache) (now : Nat) (a : FetchArgs)
    (h : cacheFind? c (cacheKey (nextPageArgs a)) = none) :
    (preloadNextPage ps c now a).2 = ps.length
      ∧ ((providersFetch ps (nextPageArgs a)).1 = [] ∧ (providersFetch ps (nextPageArgs a)).2 = 0 →
          (preloadNextPage ps c now a).1 = c) := by
  have hfresh : freshHit? c now (cacheKey (nextPageArgs a)) = none := by
    unfold freshHit?
    rw [h]
  constructor
  · unfold preloadNextPage
    dsimp only
    rw [h]
    unfold fetchNewsFromProviders
    rw [hfresh]
    by_cases hemp : (providersFetch ps (nextPageArgs a)).1 = [] ∧
        (providersFetch ps (nextPageArgs a)).2 = 0
    · simp [hemp]
    · simp [hemp]
  · intro hemp
    unfold preloadNextPage
    dsimp only
    rw [h]
    unfold fetchNewsFromProviders
    rw [hfresh]
    simp [hemp]

/-- C4 (amended): after a cache miss for page P is satisfied and stored,
exactly one preload of page P+1 is spawned; the preload's outcome never
affects the foreground result; the preload does nothing whenever *any*
entry — fresh or stale — is already present under the page-P+1 key, and
otherwise consults every provider once and, if that pass fails, changes
nothing. -/
theorem preload_after_miss (ps : List ProviderFn) (c : Cache) (now later : Nat) (a : FetchArgs)
    (hmiss : freshHit? c now (cacheKey a) = none)
    (hok : ¬((providersFetch ps a).1 = [] ∧ (providersFetch ps a).2 = 0)) :
    (fetchNewsFromProviders ps c now a).preloadSpawned = true
      ∧ (engineQuery ps c now a).1 = (fetchNewsFromProviders ps c now a).result
      ∧ (∀ e, cacheFind? (fetchNewsFromProviders ps c now a).cache (cacheKey (nextPageArgs a)) = some e →
          preloadNextPage ps (fetchNewsFromProviders ps c now a).cache later a =
            ((fetchNewsFromProviders ps c now a).cache, 0))
      ∧ (cacheFind? (fetchNewsFromProviders ps c now a).cache (cacheKey (nextPageArgs a)) = none →
          (preloadNextPage ps (fetchNewsFromProviders ps c now a).cache later a).2 = ps.length
            ∧ ((providersFetch ps (nextPageArgs a)).1 = [] ∧ (providersFetch ps (nextPageArgs a)).2 = 0 →
                (preloadNextPage ps (fetchNewsFromProviders ps c now a).cache later a).1 =
                  (fetchNewsFromProviders ps c now a).cache)) := by
  have hbody : fetchNewsFromProviders ps c now a =
      ⟨.ok ((providersFetch ps a).1, (providersFetch ps a).2),
        cachePut c (cacheKey a) ⟨(providersFetch ps a).1, (providersFetch ps a).2, now⟩,
        ps.length, true⟩ := by
    unfold fetchNewsFromProviders
    rw [hmiss]
    simp [hok]
  refine ⟨by rw [hbody], ?_, ?_, ?_⟩
  · unfold engineQuery
    cases hsp : (fetchNewsFromProviders ps c now a).preloadSpawned <;> simp [hsp]
  · intro e hfound
    exact preloadNextPage_of_found ps _ later a e hfound
  · intro hnone
    exact preloadNextPage_of_none ps _ later a hnone

/-- Witness for `preload_after_miss`: empty cache, one always-succeeding
provider. -/
theorem preload_after_miss_witness :
    (fetchNewsFromProviders [alwaysOkProvider] [] 0 args1).preloadSpawned = true
      ∧ (engineQuery [alwaysOkProvider] [] 0 args1).1 =
          (fetchNewsFromProviders [alwaysOkProvider] [] 0 args1).result
      ∧ (∀ e, cacheFind? (fetchNewsFromProviders [alwaysOkProvider] [] 0 args1).cache
            (cacheKey (nextPageArgs args1)) = some e →
          preloadNextPage [alwaysOkProvider] (fetchNewsFromProviders [alwaysOkProvider] [] 0 args1).cache
            0 args1 = ((fetchNewsFromProviders [alwaysOkProvider] [] 0 args1).cache, 0))
      ∧ (cacheFind? (fetchNewsFromProviders [alwaysOkProvider] [] 0 args1).cache
            (cacheKey (nextPageArgs args1)) = none →
          (preloadNextPage [alwaysOkProvider]
              (fetchNewsFromProviders [alwaysOkProvider] [] 0 args1).cache 0 args1).2 = 1
            ∧ ((providersFetch [alwaysOkProvider] (nextPageArgs args1)).1 = [] ∧
                  (providersFetch [alwaysOkProvider] (nextPageArgs args1)).2 = 0 →
                (preloadNextPage [alwaysOkProvider]
                    (fetchNewsFromProviders [alwaysOkProvider] [] 0 args1).cache 0 args1).1 =
                  (fetchNewsFromProviders [alwaysOkProvider] [] 0 args1).cache)) := by
  have h := preload_after_miss [alwaysOkProvider] [] 0 0 args1 (by decide)
    (by decide)
  simpa using h

/-! ## Claim C8 — orchestrator error condition -/

/-- C8 counterexample: a provider call can succeed while carrying no
articles and a zero total; the orchestrator then still fails with the
all-providers error, refuting "the fetch returns an error if and only if
all providers fail". -/
theorem orchestrator_error_on_empty_success :
    (emptyOkProvider args1).toOption.isSome = true
      ∧ (fetchNewsFromProviders [emptyOkProvider] [] 0 args1).result =
          .error "no articles fetched from any provider" := by
  exact ⟨rfl, rfl⟩

/-- C8 (amended): providers are consulted sequentially, each exactly once,
and the article list is the concatenation of successful contributions in
provider-list order (a failed provider contributing nothing); on a cache
miss the fetch fails — with the all-providers error — exactly when the
pass gathered no articles and a zero total, which covers the case where
all providers fail but also a lone provider succeeding with an empty
result. -/
theorem orchestrator_error_iff_empty (ps : List ProviderFn) (c : Cache) (now : Nat)
    (a : FetchArgs) (hmiss : freshHit? c now (cacheKey a) = none) :
    (fetchNewsFromProviders ps c now a).providerCalls = ps.length
      ∧ (providersFetch ps a).1 =
          (ps.map (fun p =>
            match p a with
            | .ok (articles, _) => articles
            | .error _ => [])).flatten
      ∧ ((fetchNewsFromProviders ps c now a).result = .error "no articles fetched from any provider"
          ↔ ((providersFetch ps a).1 = [] ∧ (providersFetch ps a).2 = 0))
      ∧ (¬((providersFetch ps a).1 = [] ∧ (providersFetch ps a).2 = 0) →
          (fetchNewsFromProviders ps c now a).result =
            .ok ((providersFetch ps a).1, (providersFetch ps a).2))
      ∧ ((∀ p ∈ ps, (p a).toOption = none) →
          (fetchNewsFromProviders ps c now a).result =
            .error "no articles fetched from any provider") := by
  by_cases hemp : (providersFetch ps a).1 = [] ∧ (providersFetch ps a).2 = 0
  · have hbody : fetchNewsFromProviders ps c now a =
        ⟨.error "no articles fetched from any provider", c, ps.length, false⟩ := by
      unfold fetchNewsFromProviders
      rw [hmiss]
      simp [hemp.1, hemp.2]
    refine ⟨by rw [hbody], providersFetch_fst_eq_flatten ps a, ?_, ?_, ?_⟩
    · rw [hbody]
      exact ⟨fun _ => hemp, fun _ => rfl⟩
    · intro hcontra; exact absurd hemp hcontra
    · intro _; rw [hbody]
  · have hbody : fetchNewsFromProviders ps c now a =
        ⟨.ok ((providersFetch ps a).1, (providersFetch ps a).2),
          cachePut c (cacheKey a) ⟨(providersFetch ps a).1, (providersFetch ps a).2, now⟩,
          ps.length, true⟩ := by
      unfold fetchNewsFromProviders
      rw [hmiss]
      simp [hemp]
    refine ⟨by rw [hbody], providersFetch_fst_eq_flatten ps a, ?_, fun _ => by rw [hbody], ?_⟩
    · rw [hbody]
      constructor
      · intro hcontra; exact Except.noConfusion hcontra
      · intro hcontra; exact absurd hcontra hemp
    · intro hfail
      exact absurd (providersFetch_eq_nil_of_all_fail ps a hfail)
        (by intro hzero; exact hemp ⟨by rw [hzero], by rw [hzero]⟩)

/-- Witness for `orchestrator_error_iff_empty`: one succeeding and one
failing provider on an empty cache. -/
theorem orchestrator_error_iff_empty_witness :
    (fetchNewsFromProviders [alwaysOkProvider, failProvider] [] 0 args1).providerCalls = 2
      ∧ (providersFetch [alwaysOkProvider, failProvider] args1).1 =
          ([alwaysOkProvider, failProvider].map (fun p =>
            match p args1 with
            | .ok (articles, _) => articles
            | .error _ => [])).flatten
      ∧ ((fetchNewsFromProviders [alwaysOkProvider, failProvider] [] 0 args1).result =
            .error "no articles fetched from any provider"
          ↔ ((providersFetch [alwaysOkProvider, failProvider] args1).1 = [] ∧
              (providersFetch [alwaysOkProvider, failProvider] args1).2 = 0))
      ∧ (¬((providersFetch [alwaysOkProvider, failProvider] args1).1 = [] ∧
            (providersFetch [alwaysOkProvider, failProvider] args1).2 = 0) →
          (fetchNewsFromProviders [alwaysOkProvider, failProvider] [] 0 args1).result =
            .ok ((providersFetch [alwaysOkProvider, failProvider] args1).1,
              (providersFetch [alwaysOkProvider, failProvider] args1).2))
      ∧ ((∀ p ∈ [alwaysOkProvider, failProvider], (p args1).toOption = none) →
          (fetchNewsFromProviders [alwaysOkProvider, failProvider] [] 0 args1).result =
            .error "no articles fetched from any provider") := by
  have h := orchestrator_error_iff_empty [alwaysOkProvider, failProvider] [] 0 args1 (by decide)
  simpa using h

/-! ## Claim C5 — negation inversion in the sentiment word pass -/

/-- C5: a negation marker at index `j` inverts the word-pass contribution
of any keyword among the next 3 tokens (index `i` with `j < i ≤ j + 3`);
in particular the web scorer gives `Score("not good") = -10 < 10 =
Score("good")`. -/
theorem negation_inverts_word_contribution (ws : List String) (i j : Nat)
    (hij : j < i) (hwin : i ≤ j + 3) (hi : i < ws.length)
    (hmark : negationWords.contains (ws.getD j "") = true) :
    wordContribAt ws i = - plainWordContrib (ws.getD i "")
      ∧ sentimentScoreWeb "not good" = -10
      ∧ sentimentScoreWeb "good" = 10
      ∧ sentimentScoreWeb "not good" < sentimentScoreWeb "good" := by
  have hjlen : j < ws.length := lt_trans hij hi
  have hidx : ((ws.take i).drop (i - 3))[j - (i - 3)]? = some (ws.getD j "") := by
    rw [List.getElem?_drop, List.getElem?_take]
    have hsum : i - 3 + (j - (i - 3)) = j := by omega
    rw [hsum, if_pos hij, List.getElem?_eq_getElem hjlen, List.getD_eq_getElem]
  have hmem : ws.getD j "" ∈ (ws.take i).drop (i - 3) := List.getElem?_mem hidx
  have hneg : isNegated ws i = true := by
    unfold isNegated
    exact List.any_eq_true.mpr ⟨ws.getD j "", hmem, hmark⟩
  refine ⟨?_, by decide, by decide, by decide⟩
  unfold wordContribAt plainWordContrib
  rw [hneg]
  dsimp only
  norm_num
  split_ifs <;> ring

/-- Witness for `negation_inverts_word_contribution` at the token stream of
`"not good"` (marker at index 0, keyword at index 1). -/
theorem negation_inverts_word_contribution_witness :
    wordContribAt ["not", "good"] 1 = - plainWordContrib (["not", "good"].getD 1 "")
      ∧ sentimentScoreWeb "not good" = -10
      ∧ sentimentScoreWeb "good" = 10
      ∧ sentimentScoreWeb "not good" < sentimentScoreWeb "good" :=
  negation_inverts_word_contribution ["not", "good"] 1 0 (by decide) (by decide) (by decide)
    (by decide)

/-! ## Claim C6 — policy score counting rule -/

/-- C6 counterexample: the claim's rule "10 points per *substring*
occurrence" disagrees with both implementations.  On `"lawful"` the rule
yields 10 (the substring `"law"`), while the web scorer — which requires
word boundaries — yields 0; and on the claim's own scenario
`"policy policy law"` the Go scorer yields 20 (10 per keyword *present*),
not the claimed 30. -/
theorem policy_not_substring_counting :
    policyScorePerSubstrOccurrence "lawful" = 10
      ∧ policyProbabilityWeb "lawful" = 0
      ∧ calculatePolicyProbability "policy policy law" = 20
      ∧ calculatePolicyProbability "policy policy law" ≠ 30 := by
  refine ⟨by decide, by decide, by decide, by decide⟩

/-- Rewriting the web policy fold as 10 points per boundary occurrence. -/
theorem policy_fold_eq_sum (ks : List String) (tl : List Char) :
    ∀ acc : Int,
      ks.foldl (fun acc w =>
        let c := countBoundary w.toList tl
        if c = 0 then acc else acc + (c : Int) * 10) acc
        = acc + 10 * (((ks.map (fun w => countBoundary w.toList tl)).sum : Nat) : Int) := by
  induction ks with
  | nil => intro acc; simp
  | cons w ks ih =>
    intro acc
    by_cases hc : countBoundary w.toList tl = 0
    · simp only [List.foldl_cons, List.map_cons, List.sum_cons, hc]
      rw [ih]
      push_cast
      ring
    · simp only [List.foldl_cons, List.map_cons, List.sum_cons, if_neg hc]
      rw [ih]
      push_cast
      ring

/-- C6 (amended): the web policy score counts every *word-boundary*
occurrence of each policy keyword at 10 points per occurrence, clamped
above by 100, so `Score("policy policy law")` yields policy 30 and impact
0; the Go scorer instead adds 10 per keyword occurring at least once as a
substring, yielding 20 on that text. -/
theorem policy_boundary_occurrence_scoring :
    policyProbabilityWeb "policy policy law" = 30
      ∧ impactScoreWeb "policy policy law" = 0
      ∧ calculatePolicyProbability "policy policy law" = 20
      ∧ ∀ text : String,
          policyProbabilityWeb text = min 100 (10 * (policyBoundaryOccurrences text : Int)) := by
  refine ⟨by decide, by decide, by decide, ?_⟩
  intro text
  unfold policyProbabilityWeb policyBoundaryOccurrences
  dsimp only
  rw [policy_fold_eq_sum]
  rw [zero_add]

/-! ## Claim C7 — clamping of the three enrichment scores -/

/-- C7: for every text, the sentiment score lies in `[-100, 100]` and the
impact and policy scores lie in `[0, 100]`, in the web scorers and in the
Go scorers alike. -/
theorem scores_clamped : ∀ text : String,
    (-100 ≤ sentimentScoreWeb text ∧ sentimentScoreWeb text ≤ 100)
      ∧ (0 ≤ impactScoreWeb text ∧ impactScoreWeb text ≤ 100)
      ∧ (0 ≤ policyProbabilityWeb text ∧ policyProbabilityWeb text ≤ 100)
      ∧ (-100 ≤ calculateSentimentScore text ∧ calculateSentimentScore text ≤ 100)
      ∧ (0 ≤ calculateImpactScore text ∧ calculateImpactScore text ≤ 100)
      ∧ (0 ≤ calculatePolicyProbability text ∧ calculatePolicyProbability text ≤ 100) := by
  intro text
  have himpact : (0 : Int) ≤ impactfulWords.foldl
      (fun acc w =>
        let c := countBoundary w.toList (lowerStr text).toList
        if c = 0 then acc else acc + (c : Int) * 5) 0 := by
    apply foldl_le_init
    intro acc w
    dsimp only
    split
    · exact le_rfl
    · have : (0 : Int) ≤ (countBoundary w.toList (lowerStr text).toList : Int) * 5 :=
        mul_nonneg (Int.natCast_nonneg _) (by norm_num)
      omega
  have hpolicy : (0 : Int) ≤ policyKeywordsWeb.foldl
      (fun acc w =>
        let c := countBoundary w.toList (lowerStr text).toList
        if c = 0 then acc else acc + (c : Int) * 10) 0 := by
    apply foldl_le_init
    intro acc w
    dsimp only
    split
    · exact le_rfl
    · have : (0 : Int) ≤ (countBoundary w.toList (lowerStr text).toList : Int) * 10 :=
        mul_nonneg (Int.natCast_nonneg _) (by norm_num)
      omega
  have himpactGo : (0 : Int) ≤ impactScoreKeywords.foldl
      (fun score k => if containsSub (lowerStr text).toList k.toList then score + 7 else score) 0 := by
    apply foldl_le_init
    intro acc w
    split <;> omega
  have hpolicyGo : (0 : Int) ≤ policyKeywords.foldl
      (fun score k => if containsSub (lowerStr text).toList k.toList then score + 10 else score) 0 := by
    apply foldl_le_init
    intro acc w
    split <;> omega
  refine ⟨⟨?_, ?_⟩, ⟨?_, ?_⟩, ⟨?_, ?_⟩, ⟨?_, ?_⟩, ⟨?_, ?_⟩, ⟨?_, ?_⟩⟩
  · exact le_max_left _ _
  · exact max_le (by norm_num) (min_le_left _ _)
  · exact le_min (by norm_num) himpact
  · exact min_le_left _ _
  · exact le_min (by norm_num) hpolicy
  · exact min_le_left _ _
  · unfold calculateSentimentScore
    dsimp only
    split_ifs <;> omega
  · unfold calculateSentimentScore
    dsimp only
    split_ifs <;> omega
  · exact le_min (by norm_num) himpactGo
  · exact min_le_left _ _
  · exact le_min (by norm_num) hpolicyGo
  · exact min_le_left _ _

/-! ## Claim C9 — session-wide URL deduplication -/

/-- C9 counterexample: the engine keeps no URL-keyed deduplication set.
After two queries whose results share the URL of `artV1`/`artV2`, the
cache holds *two* articles with that URL — not exactly one — and the
second query returns its own version `artV2`, not the first-seen
`artV1`. -/
theorem no_session_dedupe_duplicate_urls :
    (cachedArticles (fetchNewsFromProviders [twoQueryProvider]
        (fetchNewsFromProviders [twoQueryProvider] [] 0 args1).cache 0 argsR).cache).countP
        (fun x => x.URL = artV1.URL) = 2
      ∧ artV2 ∈ cachedArticles (fetchNewsFromProviders [twoQueryProvider]
          (fetchNewsFromProviders [twoQueryProvider] [] 0 args1).cache 0 argsR).cache
      ∧ artV1 ≠ artV2
      ∧ (fetchNewsFromProviders [twoQueryProvider]
          (fetchNewsFromProviders [twoQueryProvider] [] 0 args1).cache 0 argsR).result =
          .ok ([artV2], 1) := by
  refine ⟨by decide, by decide, by decide, rfl⟩

/-- C9 (amended): the engine performs no session-wide URL deduplication:
each query's articles are stored verbatim under that query's cache key, so
two cache-miss queries with distinct keys whose results both contain a
given URL leave (at least) two articles with that URL in the cache — the
first-seen version is not the only one retained. -/
theorem cache_retains_duplicate_urls (ps : List ProviderFn) (a b : FetchArgs)
    (n1 n2 : Nat) (u : String)
    (hkey : cacheKey a ≠ cacheKey b)
    (ha : 1 ≤ (providersFetch ps a).1.countP (fun x => x.URL = u))
    (hb : 1 ≤ (providersFetch ps b).1.countP (fun x => x.URL = u))
    (hne1 : ¬((providersFetch ps a).1 = [] ∧ (providersFetch ps a).2 = 0))
    (hne2 : ¬((providersFetch ps b).1 = [] ∧ (providersFetch ps b).2 = 0)) :
    2 ≤ (cachedArticles (fetchNewsFromProviders ps
        (fetchNewsFromProviders ps [] n1 a).cache n2 b).cache).countP
        (fun x => x.URL = u) := by
  have h1 : fetchNewsFromProviders ps [] n1 a =
      ⟨.ok ((providersFetch ps a).1, (providersFetch ps a).2),
        [(cacheKey a, ⟨(providersFetch ps a).1, (providersFetch ps a).2, n1⟩)],
        ps.length, true⟩ := by
    unfold fetchNewsFromProviders freshHit? cacheFind?
    simp [hne1, cachePut]
  rw [h1]
  have hfind : cacheFind? [(cacheKey a, ⟨(providersFetch ps a).1, (providersFetch ps a).2, n1⟩)]
      (cacheKey b) = none := by
    unfold cacheFind? cacheFind?
    rw [if_neg hkey]
  have hmiss2 : freshHit? [(cacheKey a, ⟨(providersFetch ps a).1, (providersFetch ps a).2, n1⟩)]
      n2 (cacheKey b) = none := by
    unfold freshHit?
    rw [hfind]
  have h2 : fetchNewsFromProviders ps
      [(cacheKey a, ⟨(providersFetch ps a).1, (providersFetch ps a).2, n1⟩)] n2 b =
      ⟨.ok ((providersFetch ps b).1, (providersFetch ps b).2),
        [(cacheKey a, ⟨(providersFetch ps a).1, (providersFetch ps a).2, n1⟩),
          (cacheKey b, ⟨(providersFetch ps b).1, (providersFetch ps b).2, n2⟩)],
        ps.length, true⟩ := by
    unfold fetchNewsFromProviders
    rw [hmiss2]
    simp [hne2, cachePut, hkey]
  rw [h2]
  unfold cachedArticles
  simp only [List.map_cons, List.map_nil, List.flatten_cons, List.flatten_nil,
    List.append_nil, List.countP_append]
  omega

/-- Witness for `cache_retains_duplicate_urls` at the two-query provider
fixture. -/
theorem cache_retains_duplicate_urls_witness :
    2 ≤ (cachedArticles (fetchNewsFromProviders [twoQueryProvider]
        (fetchNewsFromProviders [twoQueryProvider] [] 0 args1).cache 0 argsR).cache).countP
        (fun x => x.URL = artV1.URL) :=
  cache_retains_duplicate_urls [twoQueryProvider] args1 argsR 0 0 artV1.URL
    (by decide) (by decide) (by decide) (by decide) (by decide)

/-! ## Claim C10 — bookmark toggling -/

/-- Articles removed by the toggle's filter never carry another URL, so
scanning for a different URL is unaffected. -/
theorem any_filter_ne_eq (bms : List Article) (aurl url : String) (h : url ≠ aurl) :
    (bms.filter (fun bm => bm.URL ≠ aurl)).any (fun bm => bm.URL = url)
      = bms.any (fun bm => bm.URL = url) := by
  induction bms with
  | nil => rfl
  | cons b bs ih =>
    by_cases hb : b.URL = aurl
    · have hpb : decide (b.URL ≠ aurl) = false := by simp [hb]
      rw [List.filter_cons, hpb]
      simp only [Bool.false_eq_true, if_false]
      have hbu : b.URL ≠ url := by rw [hb]; exact Ne.symm h
      rw [List.any_cons, decide_eq_false hbu, Bool.false_or]
      exact ih
    · have hpb : decide (b.URL ≠ aurl) = true := by simp [hb]
      rw [List.filter_cons, hpb, if_pos rfl, List.any_cons, List.any_cons, ih]

/-- After filtering out a URL, no bookmark with that URL remains. -/
theorem any_filter_self_false (bms : List Article) (aurl : String) :
    (bms.filter (fun bm => bm.URL ≠ aurl)).any (fun bm => bm.URL = aurl) = false := by
  induction bms with
  | nil => rfl
  | cons b bs ih =>
    by_cases hb : b.URL = aurl
    · have hpb : decide (b.URL ≠ aurl) = false := by simp [hb]
      rw [List.filter_cons, hpb]
      simp only [Bool.false_eq_true, if_false]
      exact ih
    · have hpb : decide (b.URL ≠ aurl) = true := by simp [hb]
      rw [List.filter_cons, hpb, if_pos rfl, List.any_cons, ih, Bool.or_false,
        decide_eq_false hb]

/-- Toggling an article flips the bookmarked status of its URL. -/
theorem toggle_flip (bms : List Article) (article : Article) :
    isBookmarked (toggleBookmark bms article) article.URL
      = !isBookmarked bms article.URL := by
  unfold toggleBookmark isBookmarked
  by_cases hf : bms.any (fun bm => bm.URL = article.URL)
  · rw [if_pos hf, hf, any_filter_self_false]
    rfl
  · have hfalse : bms.any (fun bm => bm.URL = article.URL) = false := by
      revert hf
      cases bms.any (fun bm => bm.URL = article.URL) <;> simp
    rw [if_neg hf, List.any_append, any_filter_self_false, hfalse]
    simp [List.any_cons]

/-- Toggling an article leaves the bookmarked status of every other URL
unchanged. -/
theorem toggle_frame (bms : List Article) (article : Article) (url : String)
    (h : url ≠ article.URL) :
    isBookmarked (toggleBookmark bms article) url = isBookmarked bms url := by
  unfold toggleBookmark isBookmarked
  by_cases hf : bms.any (fun bm => bm.URL = article.URL)
  · rw [if_pos hf]
    exact any_filter_ne_eq bms article.URL url h
  · have hau : article.URL ≠ url := Ne.symm h
    rw [if_neg hf, List.any_append, any_filter_ne_eq bms article.URL url h]
    simp [List.any_cons, decide_eq_false hau]

/-- C10: `toggleBookmark` inverts the bookmarked status of the article's
URL, leaves every other URL's status unchanged, and toggling the same
article twice restores the original membership of every URL. -/
theorem toggleBookmark_inverts_membership (bms : List Article) (article : Article)
    (url : String) (h : url ≠ article.URL) :
    isBookmarked (toggleBookmark bms article) article.URL = !isBookmarked bms article.URL
      ∧ isBookmarked (toggleBookmark bms article) url = isBookmarked bms url
      ∧ ∀ v : String, isBookmarked (toggleBookmark (toggleBookmark bms article) article) v
          = isBookmarked bms v := by
  refine ⟨toggle_flip bms article, toggle_frame bms article url h, ?_⟩
  intro v
  by_cases hv : v = article.URL
  · rw [hv, toggle_flip, toggle_flip, Bool.not_not]
  · rw [toggle_frame _ _ _ hv, toggle_frame _ _ _ hv]

/-- Witness for `toggleBookmark_inverts_membership` at a concrete bookmark
list. -/
theorem toggleBookmark_inverts_membership_witness :
    isBookmarked (toggleBookmark [artV1] artB) artB.URL = !isBookmarked [artV1] artB.URL
      ∧ isBookmarked (toggleBookmark [artV1] artB) artV1.URL = isBookmarked [artV1] artV1.URL
      ∧ ∀ v : String, isBookmarked (toggleBookmark (toggleBookmark [artV1] artB) artB) v
          = isBookmarked [artV1] v :=
  toggleBookmark_inverts_membership [artV1] artB artV1.URL (by decide)

end NewsAggregator
